import Mathlib

/-!
Verification of the MoWebApp task-progress engine.

The definitions below are a shallow embedding of the TypeScript source:
  * `MemStorage` — the in-memory task store (`server/storage.ts`).
  * `AgentService` — the local heuristic conversation generator and task
    processor (`server/services/agentService.ts`).
  * `ExternalAgentService` — the external-delegation progress projection
    (`server/services/externalAgentService.ts`).
  * `Routes` — the submission endpoint and the external-oracle task runner
    with its broadcasts (`server/routes.ts`).

JavaScript platform primitives are modelled as follows: `Date` values are
abstract `Nat` time stamps supplied by the caller; `Math.random`-derived
strings (transaction ids, phone numbers) are explicit parameters; JS `Map`
iteration order (insertion order) is a `List`; IEEE floats are `ℚ` (every
claim is order-theoretic, so rounding is immaterial); `Array.prototype.sort`
(stable per ES2019) is `List.mergeSort`; JS regexes are translated to
explicit leftmost-match scanners over `List Char` with the same
backtracking semantics on the relevant character classes (`\s` is modelled
on ASCII whitespace).
-/

namespace MoWeb

/-- Check `sub` against every suffix of the haystack. -/
def listContains (hay sub : List Char) : Bool :=
  match hay with
  | [] => sub.isPrefixOf ([] : List Char)
  | c :: rest => sub.isPrefixOf (c :: rest) || listContains rest sub

/-- JS `String.prototype.includes`: substring containment. -/
def strContains (s sub : String) : Bool :=
  listContains s.toList sub.toList

/-- JS `String.prototype.toLowerCase` on ASCII. -/
def toLower (s : String) : String :=
  String.mk (s.toList.map Char.toLower)

/-- Task record (`shared/schema.ts` table `tasks`); `status` is a plain
string in the source (`pending | processing | completed | failed`). -/
structure Task where
  id : Nat
  prompt : String
  status : String
  createdAt : Nat
  completedAt : Option Nat
deriving DecidableEq

/-- Message record (`shared/schema.ts` table `messages`); `metadata` is a
jsonb column, modelled opaquely. -/
structure Message where
  id : Nat
  taskId : Nat
  agent : String
  message : String
  messageType : String
  timestamp : Nat
  metadata : Option String
deriving DecidableEq

/-- Insert shape accepted by `MemStorage.createMessage`. -/
structure InsertMessage where
  taskId : Nat
  agent : String
  message : String
  messageType : String
  metadata : Option String
deriving DecidableEq

/-- The in-memory store `MemStorage` of `server/storage.ts`.  The two JS
`Map`s are kept as lists in insertion order (JS `Map` iteration order);
ids are unique because they are assigned from the counters. -/
structure MemStorage where
  tasks : List Task
  messages : List Message
  currentTaskId : Nat
  currentMessageId : Nat
deriving DecidableEq

namespace MemStorage

/-- `MemStorage.getTask`: `this.tasks.get(id)`. -/
def getTask (st : MemStorage) (id : Nat) : Option Task :=
  st.tasks.find? (fun t => t.id == id)

/-- `MemStorage.createTask`; `now` stands for `new Date()`. -/
def createTask (st : MemStorage) (prompt : String) (now : Nat) :
    Task × MemStorage :=
  let id := st.currentTaskId
  let task : Task :=
    { id := id, prompt := prompt, status := "pending",
      createdAt := now, completedAt := none }
  (task, { st with tasks := st.tasks ++ [task], currentTaskId := id + 1 })

/-- `MemStorage.updateTaskStatus`.  The source sets
`completedAt: completedAt || null` unconditionally, so the stored value is
exactly the optional argument (`none` models both `undefined` and `null`).
`Map.set` on an existing key keeps its position, hence the in-place `map`. -/
def updateTaskStatus (st : MemStorage) (id : Nat) (status : String)
    (completedAt : Option Nat) : Option Task × MemStorage :=
  match st.tasks.find? (fun t => t.id == id) with
  | some task =>
    let updated : Task := { task with status := status, completedAt := completedAt }
    (some updated,
     { st with tasks := st.tasks.map (fun t => if t.id == id then updated else t) })
  | none => (none, st)

/-- `MemStorage.createMessage`; `now` stands for the `new Date()` taken at
write time. -/
def createMessage (st : MemStorage) (im : InsertMessage) (now : Nat) :
    Message × MemStorage :=
  let id := st.currentMessageId
  let msg : Message :=
    { id := id, taskId := im.taskId, agent := im.agent, message := im.message,
      messageType := im.messageType, timestamp := now, metadata := im.metadata }
  (msg, { st with messages := st.messages ++ [msg], currentMessageId := id + 1 })

/-- Comparator used by `getTaskMessages`:
`(a, b) => a.timestamp.getTime() - b.timestamp.getTime()`. -/
def tsLe (a b : Message) : Bool :=
  a.timestamp ≤ b.timestamp

/-- `MemStorage.getTaskMessages`: filter by task id, then a stable sort by
timestamp (JS `Array.prototype.sort` is stable; `List.mergeSort` is the
stable sort of the Lean library). -/
def getTaskMessages (st : MemStorage) (taskId : Nat) : List Message :=
  (st.messages.filter (fun m => m.taskId == taskId)).mergeSort tsLe

/-- `MemStorage.getLatestMessage`: `messages[messages.length - 1]`. -/
def getLatestMessage (st : MemStorage) (taskId : Nat) : Option Message :=
  (st.getTaskMessages taskId).getLast?

end MemStorage

namespace AgentService

/-- One step of a generated conversation flow (the object literals pushed
by `generateConversationFlow`; none of them carries a `metadata` field, so
`createMessage` receives `null` for it). -/
structure FlowStep where
  agent : String
  message : String
  messageType : String
deriving DecidableEq

/-- Keyword list of `containsPaymentKeywords`. -/
def paymentKeywords : List String :=
  ["send", "pay", "transfer", "venmo", "$", "money", "payment"]

/-- Keyword list of `containsCallKeywords`. -/
def callKeywords : List String :=
  ["call", "phone", "contact", "speak", "talk", "confirm", "ask"]

/-- `AgentService.containsPaymentKeywords`. -/
def containsPaymentKeywords (prompt : String) : Bool :=
  paymentKeywords.any (fun k => strContains (toLower prompt) k)

/-- `AgentService.containsCallKeywords`. -/
def containsCallKeywords (prompt : String) : Bool :=
  callKeywords.any (fun k => strContains (toLower prompt) k)

/-- Maximal run of ASCII digits, the greedy `\d+`. -/
def digitRun : List Char → List Char
  | [] => []
  | c :: cs => if c.isDigit then c :: digitRun cs else []

/-- Leftmost match of the regex `\$(\d+)` over the character list,
returning the full match `match[0]` (a `$` followed by the maximal digit
run).  A position matches only if at least one digit follows the `$`. -/
def findAmount : List Char → Option String
  | [] => none
  | c :: cs =>
    if c == '$' && (match cs with | d :: _ => d.isDigit | [] => false) then
      some ("$" ++ String.mk (digitRun cs))
    else findAmount cs

/-- `AgentService.extractAmount`: `prompt.match(/\$(\d+)/)`, returning
`match[0]`. -/
def extractAmount (prompt : String) : Option String :=
  findAmount prompt.toList

/-- ASCII whitespace, the relevant fragment of the regex class `\s`. -/
def isWsChar (c : Char) : Bool :=
  c == ' ' || c == '\t' || c == '\n' || c == '\r'

/-- The regex class `[A-Z]` (ASCII only, as in JS). -/
def isUpperAZ (c : Char) : Bool :=
  'A' ≤ c && c ≤ 'Z'

/-- The regex class `[a-z]` (ASCII only, as in JS). -/
def isLowerAZ (c : Char) : Bool :=
  'a' ≤ c && c ≤ 'z'

/-- Greedy maximal `[a-z]*` run together with the rest of the input. -/
def lowerRun : List Char → List Char × List Char
  | [] => ([], [])
  | c :: cs =>
    if isLowerAZ c then
      let (r, rest) := lowerRun cs
      (c :: r, rest)
    else ([], c :: cs)

/-- Greedy maximal `\s*` run length together with the rest of the input. -/
def wsRun : List Char → Nat × List Char
  | [] => (0, [])
  | c :: cs =>
    if isWsChar c then
      let (n, rest) := wsRun cs
      (n + 1, rest)
    else (0, c :: cs)

/-- Match `\s+([A-Z][a-z]+)` at the start of the input and return the
capture group.  Greediness needs no backtracking here: `[A-Z]` is never
whitespace and nothing follows the group in the pattern. -/
def matchWsName (cs : List Char) : Option String :=
  let (n, rest) := wsRun cs
  if n == 0 then none
  else
    match rest with
    | c :: cs2 =>
      if isUpperAZ c then
        let (r, _) := lowerRun cs2
        if r.isEmpty then none else some (String.mk (c :: r))
      else none
    | [] => none

/-- Match one literal keyword alternative followed by `\s+([A-Z][a-z]+)`
at the start of the input. -/
def matchKw (kw : String) (cs : List Char) : Option String :=
  if kw.toList.isPrefixOf cs then matchWsName (cs.drop kw.length) else none

/-- Match `(?:to|send|pay|call)\s+([A-Z][a-z]+)` anchored at the current
position; the alternatives are tried in the order written in the source. -/
def p1At (cs : List Char) : Option String :=
  (matchKw "to" cs) <|> (matchKw "send" cs) <|> (matchKw "pay" cs) <|>
    (matchKw "call" cs)

/-- Leftmost match of the first recipient pattern over the whole string. -/
def p1Scan : List Char → Option String
  | [] => none
  | c :: cs => (p1At (c :: cs)) <|> p1Scan cs

/-- Match `([A-Z][a-z]+)(?:\s+via|\s+and)` anchored at the current
position.  Backtracking inside `[a-z]+` cannot help, because shortening
the run exposes a lowercase letter where `\s` is required; likewise for
`\s+` before the literal alternatives. -/
def p2At (cs : List Char) : Option String :=
  match cs with
  | [] => none
  | c :: cs2 =>
    if isUpperAZ c then
      let (r, rest) := lowerRun cs2
      if r.isEmpty then none
      else
        let (n, rest2) := wsRun rest
        if n == 0 then none
        else if ("via".toList.isPrefixOf rest2) || ("and".toList.isPrefixOf rest2) then
          some (String.mk (c :: r))
        else none
    else none

/-- Leftmost match of the second recipient pattern over the whole string. -/
def p2Scan : List Char → Option String
  | [] => none
  | c :: cs => (p2At (c :: cs)) <|> p2Scan cs

/-- `AgentService.extractRecipient`: try the two patterns in order and
return the first capture group of the first pattern that matches. -/
def extractRecipient (prompt : String) : Option String :=
  (p1Scan prompt.toList) <|> (p2Scan prompt.toList)

/-- `AgentService.extractSubtasks`. -/
def extractSubtasks (prompt : String) (needsPayment needsCall : Bool) :
    List String :=
  let l1 : List String :=
    if needsPayment then
      let amount := extractAmount prompt
      let recipient := extractRecipient prompt
      ["Venmo payment " ++
        (match amount with | some a => "of " ++ a | none => "") ++ " " ++
        (match recipient with | some r => "to " ++ r | none => "")]
    else []
  let l2 : List String :=
    if needsCall then
      let recipient := extractRecipient prompt
      ["Phone call " ++
        (match recipient with | some r => "to " ++ r | none => "") ++
        " for confirmation"]
    else []
  let l3 : List String :=
    if strContains (toLower prompt) "dinner" || strContains (toLower prompt) "plans" then
      ["Discuss future plans"]
    else []
  l1 ++ l2 ++ l3

/-- `AgentService.generateVenmoFlow`; `txnId` stands for the random digits
appended to the transaction id (`Math.random().toString().substr(2, 9)`). -/
def generateVenmoFlow (prompt : String) (txnId : String) : List FlowStep :=
  let amount := (extractAmount prompt).getD "$50"
  let recipient := (extractRecipient prompt).getD "John"
  [ { agent := "supervisor",
      message := "Delegating payment task to Venmo Agent...",
      messageType := "delegation" },
    { agent := "venmo",
      message := "Received payment request: " ++ amount ++ " to " ++ recipient,
      messageType := "acknowledgment" },
    { agent := "venmo",
      message := "Searching for contact \"" ++ recipient ++ "\" in Venmo contacts...",
      messageType := "processing" },
    { agent := "venmo",
      message := "Contact found: " ++ recipient ++ " Smith (@" ++
        toLower recipient ++ "smith_venmo)",
      messageType := "success" },
    { agent := "venmo",
      message := "Initiating payment of " ++ amount ++
        " with note: \"Payment as requested\"",
      messageType := "action" },
    { agent := "venmo",
      message := "✅ Payment successful! Transaction ID: VM_" ++ txnId,
      messageType := "success" } ]

/-- `AgentService.generateCallOutcome`. -/
def generateCallOutcome (prompt : String) : String :=
  if strContains (toLower prompt) "dinner" then
    "Plans confirmed for dinner this Friday at 7 PM."
  else if strContains (toLower prompt) "lunch" then
    "Lunch plans confirmed for tomorrow at noon."
  else if strContains (toLower prompt) "meeting" then
    "Meeting scheduled for next week."
  else
    "Plans discussed and confirmed."

/-- `AgentService.generatePhoneFlow`; `phoneNumber` stands for the random
`(555) ...` number synthesised in the source. -/
def generatePhoneFlow (prompt : String) (phoneNumber : String) : List FlowStep :=
  let recipient := (extractRecipient prompt).getD "John"
  [ { agent := "phone",
      message := "Received call request for " ++ recipient ++
        " to confirm payment and discuss plans",
      messageType := "acknowledgment" },
    { agent := "phone",
      message := "Looking up contact information for " ++ recipient ++ "...",
      messageType := "processing" },
    { agent := "phone",
      message := "Found contact: " ++ recipient ++ " Smith - " ++ phoneNumber,
      messageType := "success" },
    { agent := "phone",
      message := "Initiating call to " ++ recipient ++ "...",
      messageType := "action" },
    { agent := "phone",
      message := "📞 Call connected. Confirming Venmo payment...",
      messageType := "progress" },
    { agent := "phone",
      message := recipient ++ " confirmed payment received. " ++
        (if strContains (toLower prompt) "dinner" then
          "Discussing Friday dinner plans..."
        else "Discussing plans..."),
      messageType := "progress" },
    { agent := "phone",
      message := "✅ Call completed. " ++ generateCallOutcome prompt,
      messageType := "success" } ]

/-- `AgentService.generateFinalSummary`. -/
def generateFinalSummary (prompt : String) (needsPayment needsCall : Bool) :
    String :=
  let amount := (extractAmount prompt).getD "$50"
  let recipient := (extractRecipient prompt).getD "John"
  let s1 := "All tasks completed successfully!\n\n📋 Summary:\n"
  let s2 :=
    if needsPayment then
      s1 ++ "• " ++ amount ++ " sent to " ++ recipient ++ " via Venmo ✅\n"
    else s1
  let s3 := if needsCall then s2 ++ "• Confirmation call completed ✅\n" else s2
  if strContains (toLower prompt) "dinner" then
    s3 ++ "• Dinner plans confirmed for Friday 7 PM ✅"
  else if strContains (toLower prompt) "lunch" then
    s3 ++ "• Lunch plans confirmed ✅"
  else if needsCall then
    s3 ++ "• Plans discussed and confirmed ✅"
  else s3

/-- `AgentService.generateConversationFlow`; the two random fields of the
source (venmo transaction id, phone number) are explicit parameters. -/
def generateConversationFlow (prompt txnId phoneNumber : String) :
    List FlowStep :=
  let needsPayment := containsPaymentKeywords prompt
  let needsCall := containsCallKeywords prompt
  let subtasks := extractSubtasks prompt needsPayment needsCall
  [ { agent := "supervisor",
      message := "Analyzing task: \"" ++ prompt ++ "\"",
      messageType := "analysis" },
    { agent := "supervisor",
      message := "Breaking down into subtasks:\n" ++
        String.intercalate "\n"
          (subtasks.mapIdx (fun i t => toString (i + 1) ++ ". " ++ t)),
      messageType := "planning" } ] ++
  (if needsPayment then generateVenmoFlow prompt txnId else []) ++
  (if needsPayment && needsCall then
    [ { agent := "supervisor",
        message := "Payment completed successfully. Now delegating call task to Phone Agent...",
        messageType := "coordination" } ]
  else []) ++
  (if needsCall then generatePhoneFlow prompt phoneNumber else []) ++
  [ { agent := "supervisor",
      message := generateFinalSummary prompt needsPayment needsCall,
      messageType := "completion" } ]

/-- In-memory `activeProcessing : Map<number, boolean>` lookup; a missing
key is falsy. -/
def getActive (m : List (Nat × Bool)) (id : Nat) : Bool :=
  match m.find? (fun p => p.1 == id) with
  | some p => p.2
  | none => false

/-- `activeProcessing.set(id, b)`: replace in place or append. -/
def setActive (m : List (Nat × Bool)) (id : Nat) (b : Bool) :
    List (Nat × Bool) :=
  match m.find? (fun p => p.1 == id) with
  | some _ => m.map (fun p => if p.1 == id then (id, b) else p)
  | none => m ++ [(id, b)]

/-- Combined state of the `AgentService` singleton and the store it
mutates. -/
structure ProcState where
  store : MemStorage
  activeProcessing : List (Nat × Bool)
deriving DecidableEq

/-- The emission loop of `processTask`: write each flow step through
`createMessage`; `stepTime i` stands for the `new Date()` taken when step
`i` is written (after the pacing sleep, which has no further observable
effect). -/
def writeFlow (taskId : Nat) (stepTime : Nat → Nat) :
    List FlowStep → Nat → MemStorage → MemStorage
  | [], _, st => st
  | step :: rest, i, st =>
    let (_, st1) := st.createMessage
      { taskId := taskId, agent := step.agent, message := step.message,
        messageType := step.messageType, metadata := none } (stepTime i)
    writeFlow taskId stepTime rest (i + 1) st1

/-- `AgentService.processTask` (the guard of
`ExternalAgentService.processTask` is identical).  Besides the result and
the final state it returns the store as observable right after each
`updateTaskStatus` call, the suspension points at which concurrent readers
see the intermediate status.  With `MemStorage` no storage call ever
throws and the generator is pure, so the catch branch that marks the task
`failed` is unreachable in this pairing and the run always completes. -/
def processTask (ps : ProcState) (taskId : Nat) (prompt : String)
    (txnId phoneNumber : String) (stepTime : Nat → Nat) (doneAt : Nat) :
    Except String Unit × ProcState × List MemStorage :=
  if getActive ps.activeProcessing taskId then
    (Except.error "Task is already being processed", ps, [])
  else
    let act1 := setActive ps.activeProcessing taskId true
    let (_, st1) := ps.store.updateTaskStatus taskId "processing" none
    let flow := generateConversationFlow prompt txnId phoneNumber
    let st2 := writeFlow taskId stepTime flow 0 st1
    let (_, st3) := st2.updateTaskStatus taskId "completed" (some doneAt)
    let act2 := setActive act1 taskId false
    (Except.ok (), { store := st3, activeProcessing := act2 }, [st1, st3])

end AgentService

/-- Derived per-agent status triple (`shared/schema.ts` `AgentStatus`);
each field ranges over `idle | active | complete`. -/
structure AgentStatus where
  supervisor : String
  phone : String
  venmo : String
deriving DecidableEq

/-- The `currentMessage` payload inside a progress snapshot; the ISO
rendering of the timestamp is kept abstract as the `Nat` time stamp. -/
structure CurrentMessage where
  agent : String
  message : String
  messageType : String
  timestamp : Nat
deriving DecidableEq

/-- Transient progress projection (`shared/schema.ts` `TaskProgress`);
the JS float `progress` is modelled as `ℚ`. -/
structure TaskProgress where
  taskId : Nat
  progress : ℚ
  status : String
  agentStatus : AgentStatus
  currentMessage : Option CurrentMessage
deriving DecidableEq

/-- Progress arithmetic shared by the two `getTaskProgress`
implementations, which differ only in the expected step count
(17 for `AgentService`, 8 for `ExternalAgentService`):
`completed ↦ 100`, `processing ↦ min(count / expected * 100, 95)`,
anything else keeps the initial `let progress = 0`. -/
def progressValue (expectedSteps : ℚ) (status : String) (msgCount : Nat) : ℚ :=
  if status == "completed" then 100
  else if status == "processing" then
    min ((msgCount : ℚ) / expectedSteps * 100) 95
  else 0

/-- Rank of a status along the intended lifecycle
`pending → processing → completed`; `failed` and unknown strings are
ranked last and excluded from the monotonicity statements. -/
def statusRank (s : String) : Nat :=
  if s == "pending" then 0
  else if s == "processing" then 1
  else if s == "completed" then 2
  else 3

/-- Agent-status derivation shared by the two `getTaskProgress`
implementations: all `complete` when the task is completed, else the agent
of the latest message is `active` and the rest stay `idle`. -/
def agentStatusOf (status : String) (latest : Option Message) : AgentStatus :=
  if status == "completed" then
    { supervisor := "complete", phone := "complete", venmo := "complete" }
  else
    match latest with
    | some m =>
      if m.agent == "supervisor" then
        { supervisor := "active", phone := "idle", venmo := "idle" }
      else if m.agent == "phone" then
        { supervisor := "idle", phone := "active", venmo := "idle" }
      else if m.agent == "venmo" then
        { supervisor := "idle", phone := "idle", venmo := "active" }
      else { supervisor := "idle", phone := "idle", venmo := "idle" }
    | none => { supervisor := "idle", phone := "idle", venmo := "idle" }

/-- Body shared by `AgentService.getTaskProgress` and
`ExternalAgentService.getTaskProgress`: `null` for an unknown task, else
the snapshot computed from the task status, the ordered message list and
its last element. -/
def getTaskProgressWith (expectedSteps : ℚ) (st : MemStorage) (taskId : Nat) :
    Option TaskProgress :=
  match st.getTask taskId with
  | none => none
  | some task =>
    let msgs := st.getTaskMessages taskId
    let latest := msgs.getLast?
    some
      { taskId := taskId,
        progress := progressValue expectedSteps task.status msgs.length,
        status := task.status,
        agentStatus := agentStatusOf task.status latest,
        currentMessage := latest.map (fun m =>
          { agent := m.agent, message := m.message,
            messageType := m.messageType, timestamp := m.timestamp }) }

/-- `AgentService.getTaskProgress` (typical local flow has ~17 messages). -/
def AgentService.getTaskProgress (st : MemStorage) (taskId : Nat) :
    Option TaskProgress :=
  getTaskProgressWith 17 st taskId

/-- `ExternalAgentService.getTaskProgress` (divides by 8). -/
def ExternalAgentService.getTaskProgress (st : MemStorage) (taskId : Nat) :
    Option TaskProgress :=
  getTaskProgressWith 8 st taskId

namespace Routes

/-- Outcome of the `fetch` to the external oracle, as observed by
`processTaskWithUpdates`: the HTTP success flag with status line, and the
result of `JSON.parse` on the body — the expected shape is an array of
single-key objects, modelled as key/utterance pairs; `none` models a body
that does not parse. -/
structure FetchResult where
  ok : Bool
  status : Nat
  statusText : String
  flow : Option (List (String × String))
deriving DecidableEq

/-- The three event shapes pushed through the broadcast hub by
`processTaskWithUpdates`. -/
inductive BroadcastEvent
  | taskProgress (data : TaskProgress)
  | taskCompleted (data : TaskProgress)
  | taskError (taskId : Nat) (error : String)
deriving DecidableEq

/-- Recogniser for the `taskError` shape. -/
def BroadcastEvent.isTaskError : BroadcastEvent → Bool
  | BroadcastEvent.taskError _ _ => true
  | _ => false

/-- Agent-name mapping of the emission loop (`routes.ts` lines 177-182). -/
def mapAgentName (stepKey : String) : String :=
  let a := toLower stepKey
  if a == "phone_agent" then "phone"
  else if a == "venmo_agent" then "venmo"
  else a

/-- Message-type classification of the emission loop (`routes.ts` lines
184-192); unlike `ExternalAgentService.getMessageType` these checks are
case-sensitive. -/
def routeMessageType (agentName stepMessage : String) : String :=
  if strContains stepMessage "Transaction ID" ||
      strContains stepMessage "sent successfully" then "success"
  else if strContains stepMessage "Let\x27s go to" then "delegation"
  else if agentName == "user" then "user_input"
  else "processing"

/-- Per-step agent statuses of the emission loop (`routes.ts` lines
206-211). -/
def stepAgentStatus (agentName : String) (i len : Nat) : AgentStatus :=
  { supervisor :=
      if agentName == "supervisor" then "active"
      else if i == len - 1 then "complete" else "idle",
    phone :=
      if agentName == "phone" then "active"
      else if i == len - 1 then "complete" else "idle",
    venmo :=
      if agentName == "venmo" then "active"
      else if i == len - 1 then "complete" else "idle" }

/-- The emission loop of `processTaskWithUpdates`: store each step and
broadcast a `taskProgress` event; `stepTime i` stands for the
`new Date()` of step `i`. -/
def emitSteps (taskId : Nat) (len : Nat) (stepTime : Nat → Nat) :
    List (String × String) → Nat → MemStorage → List BroadcastEvent →
    MemStorage × List BroadcastEvent
  | [], _, st, acc => (st, acc)
  | (stepKey, stepMessage) :: rest, i, st, acc =>
    let agentName := mapAgentName stepKey
    let messageType := routeMessageType agentName stepMessage
    let (_, st1) := st.createMessage
      { taskId := taskId, agent := agentName, message := stepMessage,
        messageType := messageType, metadata := none } (stepTime i)
    let progress : ℚ := min (20 + ((i : ℚ) / (len : ℚ)) * 75) 95
    let ev := BroadcastEvent.taskProgress
      { taskId := taskId, progress := progress, status := "processing",
        agentStatus := stepAgentStatus agentName i len,
        currentMessage := some
          { agent := agentName, message := stepMessage,
            messageType := messageType, timestamp := stepTime i } }
    emitSteps taskId len stepTime rest (i + 1) st1 (acc ++ [ev])

/-- `processTaskWithUpdates` of `routes.ts` (the external-oracle runner).
`prompt` only feeds the request body of the fetch, whose outcome is the
explicit `resp`; `startTime` is the `new Date()` of the initial broadcast
and `doneAt` the completion date.  Returns the final store and the list
of broadcasts in emission order; any thrown error is caught at the end,
marks the task `failed` and broadcasts a single `taskError`. -/
def processTaskWithUpdates (st : MemStorage) (taskId : Nat) (prompt : String)
    (resp : FetchResult) (stepTime : Nat → Nat) (startTime doneAt : Nat) :
    MemStorage × List BroadcastEvent :=
  let (_, st1) := st.updateTaskStatus taskId "processing" none
  let b0 := BroadcastEvent.taskProgress
    { taskId := taskId, progress := 10, status := "processing",
      agentStatus := { supervisor := "active", phone := "idle", venmo := "idle" },
      currentMessage := some
        { agent := "supervisor",
          message := "Making API call to external service...",
          messageType := "processing", timestamp := startTime } }
  if resp.ok then
    match resp.flow with
    | none =>
      let (_, st2) := st1.updateTaskStatus taskId "failed" none
      (st2, [b0, BroadcastEvent.taskError taskId "Failed to parse API response"])
    | some conversationFlow =>
      let (st2, evs) :=
        emitSteps taskId conversationFlow.length stepTime conversationFlow 0 st1 []
      let (_, st3) := st2.updateTaskStatus taskId "completed" (some doneAt)
      let done := BroadcastEvent.taskCompleted
        { taskId := taskId, progress := 100, status := "completed",
          agentStatus :=
            { supervisor := "complete", phone := "complete", venmo := "complete" },
          currentMessage := none }
      (st3, [b0] ++ evs ++ [done])
  else
    let (_, st2) := st1.updateTaskStatus taskId "failed" none
    (st2, [b0, BroadcastEvent.taskError taskId
      ("API call failed: " ++ toString resp.status ++ " " ++ resp.statusText)])

/-- The `prompt` member of a submission body as the zod schema sees it:
absent, a JSON string, or present with a non-string JSON type. -/
inductive PromptField
  | missing
  | strVal (s : String)
  | nonString
deriving DecidableEq

/-- `insertTaskSchema.parse` on the request body.  The schema is
`createInsertSchema(tasks).pick({prompt: true})`; drizzle-zod maps the
non-null `text` column to a required `z.string()` with no length
constraint, so any string — including the empty string — passes, while an
absent or non-string member raises a `ZodError` whose issue list names the
field. -/
def insertTaskSchemaParse : PromptField → Except (List String) String
  | PromptField.strVal s => Except.ok s
  | PromptField.missing => Except.error ["prompt: Required"]
  | PromptField.nonString => Except.error ["prompt: Expected string, received other"]

/-- Responses of `POST /api/tasks` as far as the validation claim is
concerned: the created task as JSON, or the 400 payload listing the zod
field errors. -/
inductive ApiResponse
  | okTask (t : Task)
  | validationError (errors : List String)
deriving DecidableEq

/-- `POST /api/tasks` (`routes.ts` lines 57-75) up to the synchronous
response: validate, create the task, answer with it; the asynchronous
processing kicked off afterwards does not affect the response.  On a
`ZodError` answer 400 with the field errors and touch nothing. -/
def postTasks (st : MemStorage) (body : PromptField) (now : Nat) :
    ApiResponse × MemStorage :=
  match insertTaskSchemaParse body with
  | Except.ok prompt =>
    let (task, st1) := st.createTask prompt now
    (ApiResponse.okTask task, st1)
  | Except.error errs => (ApiResponse.validationError errs, st)

end Routes

/-! ## Concrete example states used by counterexamples and witnesses -/

/-- A fresh store, as built by the `MemStorage` constructor. -/
def emptyStore : MemStorage :=
  { tasks := [], messages := [], currentTaskId := 1, currentMessageId := 1 }

/-- A store holding one failed task that has already emitted one message. -/
def storeC2 : MemStorage :=
  { tasks := [{ id := 1, prompt := "Send Alex $32.50", status := "failed",
                createdAt := 0, completedAt := none }],
    messages := [{ id := 1, taskId := 1, agent := "venmo", message := "m",
                   messageType := "processing", timestamp := 3, metadata := none }],
    currentTaskId := 2, currentMessageId := 2 }

/-- A store holding one completed task with a recorded completion date. -/
def storeC3 : MemStorage :=
  { tasks := [{ id := 1, prompt := "Send Alex $32.50", status := "completed",
                createdAt := 0, completedAt := some 10 }],
    messages := [], currentTaskId := 2, currentMessageId := 1 }

/-- A store holding one pending task, as right after submission. -/
def storeC5 : MemStorage :=
  { tasks := [{ id := 1, prompt := "Send Alex $32.50", status := "pending",
                createdAt := 0, completedAt := none }],
    messages := [], currentTaskId := 2, currentMessageId := 1 }

/-- A store holding one completed task with a completion date on record. -/
def storeC6 : MemStorage :=
  { tasks := [{ id := 1, prompt := "Pay Bob $5", status := "completed",
                createdAt := 0, completedAt := some 5 }],
    messages := [], currentTaskId := 2, currentMessageId := 1 }

/-- A store with two tasks and two timestamp-ordered messages on task 1. -/
def storeC7 : MemStorage :=
  { tasks := [{ id := 1, prompt := "Send Alex $32.50", status := "processing",
                createdAt := 0, completedAt := none },
              { id := 2, prompt := "call Bob", status := "pending",
                createdAt := 1, completedAt := none }],
    messages := [{ id := 1, taskId := 1, agent := "supervisor", message := "a",
                   messageType := "analysis", timestamp := 2, metadata := none },
                 { id := 2, taskId := 2, agent := "supervisor", message := "b",
                   messageType := "analysis", timestamp := 2, metadata := none },
                 { id := 3, taskId := 1, agent := "venmo", message := "c",
                   messageType := "processing", timestamp := 2, metadata := none }],
    currentTaskId := 3, currentMessageId := 4 }

/-- A store holding one processing task with one message; used as the
later snapshot of the progress-monotonicity witness. -/
def storeC8b : MemStorage :=
  { tasks := [{ id := 1, prompt := "Send Alex $32.50", status := "processing",
                createdAt := 0, completedAt := none }],
    messages := [{ id := 1, taskId := 1, agent := "supervisor", message := "a",
                   messageType := "analysis", timestamp := 2, metadata := none }],
    currentTaskId := 2, currentMessageId := 2 }

/-- The failed oracle reply used by the C5 witness: HTTP 500. -/
def respC5 : Routes.FetchResult :=
  { ok := false, status := 500, statusText := "Internal Server Error", flow := none }

/-! ## Shared lemmas about the store -/

/-- Sorting is a permutation, so the snapshot sees as many messages as are
stored for the task. -/
theorem getTaskMessages_length (st : MemStorage) (tid : Nat) :
    (st.getTaskMessages tid).length =
      (st.messages.filter (fun m => m.taskId == tid)).length := by
  unfold MemStorage.getTaskMessages
  exact (List.mergeSort_perm _ _).length_eq

/-- A stable sort leaves an already timestamp-sorted message list
untouched. -/
theorem getTaskMessages_eq_of_sorted (st : MemStorage) (tid : Nat)
    (h : (st.messages.filter (fun m => m.taskId == tid)).Pairwise
      (fun a b => a.timestamp ≤ b.timestamp)) :
    st.getTaskMessages tid = st.messages.filter (fun m => m.taskId == tid) := by
  unfold MemStorage.getTaskMessages
  apply List.mergeSort_of_sorted
  simpa [MemStorage.tsLe] using h

/-- `updateTaskStatus` never touches the message table. -/
theorem updateTaskStatus_messages (st : MemStorage) (id : Nat) (s : String)
    (c : Option Nat) : (st.updateTaskStatus id s c).2.messages = st.messages := by
  unfold MemStorage.updateTaskStatus
  cases st.tasks.find? (fun t => t.id == id) <;> rfl

/-- Replacing the entry of one key rewrites exactly the `find?` result for
that key. -/
theorem find?_map_replace (l : List Task) (id : Nat) (u : Task)
    (hu : (u.id == id) = true) :
    (l.map (fun t => if t.id == id then u else t)).find? (fun t => t.id == id) =
      (l.find? (fun t => t.id == id)).map (fun _ => u) := by
  induction l with
  | nil => rfl
  | cons a l ih =>
    by_cases ha : (a.id == id) = true
    · simp [List.find?, ha, hu]
    · simp only [List.map_cons, List.find?]
      rw [if_neg (by simp [ha])]
      simp only [Bool.not_eq_true] at ha
      rw [ha]
      exact ih

/-- Looking up a task right after `updateTaskStatus` returns it with the
new status and exactly the supplied completion date. -/
theorem getTask_updateTaskStatus_self (st : MemStorage) (id : Nat) (s : String)
    (c : Option Nat) (t : Task) (h : st.getTask id = some t) :
    (st.updateTaskStatus id s c).2.getTask id =
      some { t with status := s, completedAt := c } := by
  unfold MemStorage.getTask at h ⊢
  unfold MemStorage.updateTaskStatus
  rw [h]
  have hid : (t.id == id) = true := by
    have := List.find?_some h
    simpa using this
  simp only
  rw [find?_map_replace st.tasks id _ (by simpa using hid), h]
  rfl

/-- The emission loop only appends messages; the task table is untouched. -/
theorem writeFlow_tasks (tid : Nat) (stepTime : Nat → Nat) :
    ∀ (flow : List AgentService.FlowStep) (i : Nat) (st : MemStorage),
      (AgentService.writeFlow tid stepTime flow i st).tasks = st.tasks := by
  intro flow
  induction flow with
  | nil => intro i st; rfl
  | cons step rest ih =>
    intro i st
    rw [AgentService.writeFlow]
    exact ih (i + 1) _

/-- Unfolding of `progressValue` at status `pending`. -/
theorem progressValue_pending (e : ℚ) (n : Nat) :
    progressValue e "pending" n = 0 := rfl

/-- Unfolding of `progressValue` at status `processing`. -/
theorem progressValue_processing (e : ℚ) (n : Nat) :
    progressValue e "processing" n = min ((n : ℚ) / e * 100) 95 := rfl

/-- Unfolding of `progressValue` at status `completed`. -/
theorem progressValue_completed (e : ℚ) (n : Nat) :
    progressValue e "completed" n = 100 := rfl

/-- The progress estimate is monotone along the lifecycle order and in
the message count, for any positive expected step count. -/
theorem progressValue_mono (e : ℚ) (he : 0 < e) (s₁ s₂ : String) (n₁ n₂ : Nat)
    (hv₁ : s₁ = "pending" ∨ s₁ = "processing" ∨ s₁ = "completed")
    (hv₂ : s₂ = "pending" ∨ s₂ = "processing" ∨ s₂ = "completed")
    (hrank : statusRank s₁ ≤ statusRank s₂) (hn : n₁ ≤ n₂) :
    progressValue e s₁ n₁ ≤ progressValue e s₂ n₂ := by
  have hp : ∀ n : Nat, (0 : ℚ) ≤ (n : ℚ) / e * 100 := fun n => by positivity
  rcases hv₁ with h1 | h1 | h1 <;> subst h1 <;>
    rcases hv₂ with h2 | h2 | h2 <;> subst h2
  · exact le_of_eq rfl
  · rw [progressValue_pending, progressValue_processing]
    exact le_min (hp n₂) (by norm_num)
  · rw [progressValue_pending, progressValue_completed]
    norm_num
  · exact absurd hrank (by decide)
  · rw [progressValue_processing, progressValue_processing]
    refine min_le_min ?_ le_rfl
    have hc : (n₁ : ℚ) ≤ (n₂ : ℚ) := by exact_mod_cast hn
    gcongr
  · rw [progressValue_processing, progressValue_completed]
    exact (min_le_right _ _).trans (by norm_num)
  · exact absurd hrank (by decide)
  · exact absurd hrank (by decide)
  · exact le_of_eq rfl

/-- The progress field of a snapshot of an existing task is
`progressValue` applied to the task's status and its stored message
count. -/
theorem getTaskProgress_progress_eq (e : ℚ) (st : MemStorage) (tid : Nat)
    (t : Task) (h : st.getTask tid = some t) :
    ((getTaskProgressWith e st tid).map TaskProgress.progress).getD 0 =
      progressValue e t.status (st.messages.filter (fun m => m.taskId == tid)).length := by
  unfold getTaskProgressWith
  rw [h]
  simp [getTaskMessages_length]

/-! ## Claim C1 -/

/-- C1, counterexample.  On the prompt `"Send Alex $32.50"` the regex
`\$(\d+)` stops at the decimal point, so the extracted amount is `"$32"`,
not `"$32.50"`; both recipient patterns are case-sensitive and fail on
the capitalised `"Send"`, so no recipient is extracted; consequently the
completion summary does not contain `"$32.50 sent to Alex via Venmo ✅"`.
This refutes the claimed extraction results and summary text. -/
theorem C1_counterexample :
    AgentService.extractAmount "Send Alex $32.50" = some "$32" ∧
    AgentService.extractAmount "Send Alex $32.50" ≠ some "$32.50" ∧
    AgentService.extractRecipient "Send Alex $32.50" = none ∧
    strContains (AgentService.generateFinalSummary "Send Alex $32.50" true false)
      "$32.50 sent to Alex via Venmo ✅" = false := by
  decide

/-- C1, amended.  For the prompt `"Send Alex $32.50"` the local heuristic
generator detects payment intent only and produces exactly one supervisor
analysis step, one supervisor planning step, one supervisor delegation
step plus five venmo-agent steps, and a supervisor completion summary —
but the extracted amount is `"$32"` (the `\$(\d+)` pattern drops the
cents) and the recipient falls back to the default `"John"` (the
case-sensitive patterns do not match `"Send Alex"`), so the summary
contains `"$32 sent to John via Venmo ✅"`. -/
theorem C1_amended_flow (txnId phoneNumber : String) :
    AgentService.containsPaymentKeywords "Send Alex $32.50" = true ∧
    AgentService.containsCallKeywords "Send Alex $32.50" = false ∧
    AgentService.generateConversationFlow "Send Alex $32.50" txnId phoneNumber =
    [ { agent := "supervisor",
        message := "Analyzing task: \"Send Alex $32.50\"",
        messageType := "analysis" },
      { agent := "supervisor",
        message := "Breaking down into subtasks:\n1. Venmo payment of $32 ",
        messageType := "planning" },
      { agent := "supervisor",
        message := "Delegating payment task to Venmo Agent...",
        messageType := "delegation" },
      { agent := "venmo",
        message := "Received payment request: $32 to John",
        messageType := "acknowledgment" },
      { agent := "venmo",
        message := "Searching for contact \"John\" in Venmo contacts...",
        messageType := "processing" },
      { agent := "venmo",
        message := "Contact found: John Smith (@johnsmith_venmo)",
        messageType := "success" },
      { agent := "venmo",
        message := "Initiating payment of $32 with note: \"Payment as requested\"",
        messageType := "action" },
      { agent := "venmo",
        message := "✅ Payment successful! Transaction ID: VM_" ++ txnId,
        messageType := "success" },
      { agent := "supervisor",
        message := "All tasks completed successfully!\n\n📋 Summary:\n• $32 sent to John via Venmo ✅\n",
        messageType := "completion" } ] := by
  refine ⟨by decide, by decide, ?_⟩
  rfl

/-! ## Claim C2 -/

/-- C2, counterexample.  A failed task reports progress `0` from
`getTaskProgress`, not the last value computed before the failure: the
snapshot is recomputed from scratch on every call and the
pending-or-failed branch leaves the initial `0`.  Here the failed task
has one stored message, so the last processing-time value was
`min(1/17·100, 95) ≠ 0`, yet the snapshot reports `0`; in particular it
is not only pending tasks that report progress `0`. -/
theorem C2_counterexample :
    (storeC2.getTask 1).map Task.status = some "failed" ∧
    (AgentService.getTaskProgress storeC2 1).map TaskProgress.progress = some 0 ∧
    progressValue 17 "processing" 1 ≠ 0 := by
  refine ⟨by decide, by rfl, ?_⟩
  simp only [progressValue, min_def]
  norm_num
  rw [if_neg (by decide : ¬("processing" : String) = "completed")]
  norm_num

/-- C2, amended.  For every task whose status is `failed` the snapshot
returned by `getTaskProgress` (both implementations) reports progress
`0`, exactly as for a `pending` task: progress is recomputed on every
query and is not frozen at the last value computed before the failure. -/
theorem C2_failed_progress_zero (st : MemStorage) (tid : Nat) (t : Task)
    (h : st.getTask tid = some t) (hf : t.status = "failed") :
    (AgentService.getTaskProgress st tid).map TaskProgress.progress = some 0 ∧
    (ExternalAgentService.getTaskProgress st tid).map TaskProgress.progress = some 0 := by
  unfold AgentService.getTaskProgress ExternalAgentService.getTaskProgress
    getTaskProgressWith
  rw [h]
  simp [progressValue, hf]

/-- C2, witness: the failed task of `storeC2` reports progress `0` under
both progress projections. -/
theorem C2_witness :
    (AgentService.getTaskProgress storeC2 1).map TaskProgress.progress = some 0 ∧
    (ExternalAgentService.getTaskProgress storeC2 1).map TaskProgress.progress = some 0 :=
  C2_failed_progress_zero storeC2 1
    { id := 1, prompt := "Send Alex $32.50", status := "failed",
      createdAt := 0, completedAt := none }
    (by decide) (by decide)

/-! ## Claim C4 -/

/-- C4.  If `processTask` is invoked while a run for the same task id is
marked active, it fails with the already-processing error and performs no
state change at all: the store (hence the task's status, `completedAt`
and message sequence) and the active set are returned exactly as they
were, and no status-update observation point is reached. -/
theorem C4_already_processing_no_change (ps : AgentService.ProcState)
    (taskId : Nat) (prompt txnId phoneNumber : String) (stepTime : Nat → Nat)
    (doneAt : Nat)
    (h : AgentService.getActive ps.activeProcessing taskId = true) :
    AgentService.processTask ps taskId prompt txnId phoneNumber stepTime doneAt =
      (Except.error "Task is already being processed", ps, []) := by
  unfold AgentService.processTask
  simp [h]

/-- C4, witness: a re-entrant call on the active task 1 of a fresh state
returns the error and the state unchanged. -/
theorem C4_witness :
    AgentService.processTask { store := emptyStore, activeProcessing := [(1, true)] }
        1 "Send Alex $32.50" "123456789" "(555) 123-4567" (fun _ => 0) 7 =
      (Except.error "Task is already being processed",
       { store := emptyStore, activeProcessing := [(1, true)] }, []) :=
  C4_already_processing_no_change
    { store := emptyStore, activeProcessing := [(1, true)] }
    1 "Send Alex $32.50" "123456789" "(555) 123-4567" (fun _ => 0) 7 (by decide)

/-! ## Claim C6 -/

/-- C6, counterexample.  `updateTaskStatus` does not leave a previously
stored `completedAt` unchanged when the new status is non-terminal: it
always overwrites the field with the supplied value or `null`.  Updating
the completed task of `storeC6` (whose `completedAt` is `some 5`) to
`"processing"` resets `completedAt` to `none`. -/
theorem C6_counterexample :
    (storeC6.getTask 1).map Task.completedAt = some (some 5) ∧
    ((storeC6.updateTaskStatus 1 "processing" none).2.getTask 1).map Task.completedAt =
      some none := by
  decide

/-- C6, amended.  `updateTaskStatus(id, status, completedAt?)` replaces
the task's status and unconditionally sets `completedAt` to the supplied
value (or `null` when absent) — terminality of the new status is never
consulted; all other fields (`id`, `prompt`, `createdAt`) and the message
table are left unchanged, and an unknown id yields not-found with the
store untouched. -/
theorem C6_updateTaskStatus_frame (st : MemStorage) (id : Nat)
    (status : String) (c : Option Nat) :
    (st.updateTaskStatus id status c).1 =
      (st.getTask id).map (fun t => { t with status := status, completedAt := c }) ∧
    (st.updateTaskStatus id status c).2.getTask id =
      (st.getTask id).map (fun t => { t with status := status, completedAt := c }) ∧
    (st.updateTaskStatus id status c).2.messages = st.messages ∧
    (st.getTask id = none → st.updateTaskStatus id status c = (none, st)) := by
  refine ⟨?_, ?_, updateTaskStatus_messages st id status c, ?_⟩
  · unfold MemStorage.updateTaskStatus MemStorage.getTask
    cases h : st.tasks.find? (fun t => t.id == id) <;> rfl
  · cases h : st.getTask id with
    | none =>
      have hupd : st.updateTaskStatus id status c = (none, st) := by
        unfold MemStorage.updateTaskStatus
        unfold MemStorage.getTask at h
        rw [h]
      rw [hupd, h]
      rfl
    | some t =>
      rw [getTask_updateTaskStatus_self st id status c t h]
      rfl
  · intro h
    unfold MemStorage.updateTaskStatus
    unfold MemStorage.getTask at h
    rw [h]

/-- C6, witness: instantiating the frame property on `storeC6` where the
task exists, and on the empty store where the id is unknown. -/
theorem C6_witness :
    (storeC6.updateTaskStatus 1 "failed" (some 9)).1 =
      (storeC6.getTask 1).map (fun t => { t with status := "failed", completedAt := some 9 }) ∧
    MemStorage.updateTaskStatus emptyStore 1 "processing" none = (none, emptyStore) :=
  ⟨(C6_updateTaskStatus_frame storeC6 1 "failed" (some 9)).1,
   (C6_updateTaskStatus_frame emptyStore 1 "processing" none).2.2.2 (by decide)⟩

/-! ## Claim C3 -/

/-- C3, counterexample.  Terminal states do have outgoing transitions:
invoking `processTask` again on the completed task of `storeC3` (which is
not marked active — the guard is cleared at the end of every run) is not
rejected, and the store observable after its first status update shows
the task back in status `processing`.  The task has returned from
`completed` to an earlier state. -/
theorem C3_counterexample :
    (storeC3.getTask 1).map Task.status = some "completed" ∧
    (AgentService.processTask { store := storeC3, activeProcessing := [] }
        1 "Send Alex $32.50" "123456789" "(555) 123-4567" (fun i => i) 20).1 =
      Except.ok () ∧
    ((AgentService.processTask { store := storeC3, activeProcessing := [] }
        1 "Send Alex $32.50" "123456789" "(555) 123-4567" (fun i => i) 20).2.2.head?.map
      (fun st => (st.getTask 1).map Task.status)) = some (some "processing") := by
  refine ⟨by decide, by rfl, by decide⟩

/-- C3, amended.  Within a single `processTask` run the observed status
sequence is monotone — the first status update puts the task in
`processing`, the second and last in `completed` with the completion
date — but the statuses are not otherwise guarded: the run proceeds for
any existing task that is not currently marked active, including one
already in a terminal state, which is thereby reset to `processing`
before being driven to `completed` again. -/
theorem C3_terminal_not_protected (ps : AgentService.ProcState) (taskId : Nat)
    (prompt txnId phoneNumber : String) (stepTime : Nat → Nat) (doneAt : Nat)
    (t : Task)
    (hact : AgentService.getActive ps.activeProcessing taskId = false)
    (ht : ps.store.getTask taskId = some t) :
    (AgentService.processTask ps taskId prompt txnId phoneNumber stepTime doneAt).1 =
      Except.ok () ∧
    ((AgentService.processTask ps taskId prompt txnId phoneNumber stepTime doneAt).2.2.head?.bind
      (fun st => st.getTask taskId)) =
      some { t with status := "processing", completedAt := none } ∧
    ((AgentService.processTask ps taskId prompt txnId phoneNumber stepTime doneAt).2.2.getLast?.bind
      (fun st => st.getTask taskId)) =
      some { t with status := "completed", completedAt := some doneAt } ∧
    ((AgentService.processTask ps taskId prompt txnId phoneNumber stepTime doneAt).2.1.store.getTask
      taskId) = some { t with status := "completed", completedAt := some doneAt } := by
  have h1 := getTask_updateTaskStatus_self ps.store taskId "processing" none t ht
  have h2 : (AgentService.writeFlow taskId stepTime
      (AgentService.generateConversationFlow prompt txnId phoneNumber) 0
      (ps.store.updateTaskStatus taskId "processing" none).2).getTask taskId =
      some { t with status := "processing", completedAt := none } := by
    unfold MemStorage.getTask
    rw [writeFlow_tasks]
    exact h1
  have h3 := getTask_updateTaskStatus_self _ taskId "completed" (some doneAt) _ h2
  unfold AgentService.processTask
  simp only [hact, Bool.false_eq_true, if_false]
  refine ⟨trivial, by simpa using h1, ?_, by simpa using h3⟩
  simp only [List.getLast?]
  simpa using h3

/-- C3, witness: running the processor on the pending task of `storeC5`
follows the monotone sequence `processing` then `completed`. -/
theorem C3_witness :
    (AgentService.processTask { store := storeC5, activeProcessing := [] }
        1 "Send Alex $32.50" "123456789" "(555) 000-0000" (fun i => i) 20).1 =
      Except.ok () ∧
    ((AgentService.processTask { store := storeC5, activeProcessing := [] }
        1 "Send Alex $32.50" "123456789" "(555) 000-0000" (fun i => i) 20).2.2.head?.bind
      (fun st => st.getTask 1)) =
      some { id := 1, prompt := "Send Alex $32.50", status := "processing",
             createdAt := 0, completedAt := none } ∧
    ((AgentService.processTask { store := storeC5, activeProcessing := [] }
        1 "Send Alex $32.50" "123456789" "(555) 000-0000" (fun i => i) 20).2.2.getLast?.bind
      (fun st => st.getTask 1)) =
      some { id := 1, prompt := "Send Alex $32.50", status := "completed",
             createdAt := 0, completedAt := some 20 } ∧
    ((AgentService.processTask { store := storeC5, activeProcessing := [] }
        1 "Send Alex $32.50" "123456789" "(555) 000-0000" (fun i => i) 20).2.1.store.getTask 1) =
      some { id := 1, prompt := "Send Alex $32.50", status := "completed",
             createdAt := 0, completedAt := some 20 } :=
  C3_terminal_not_protected { store := storeC5, activeProcessing := [] } 1
    "Send Alex $32.50" "123456789" "(555) 000-0000" (fun i => i) 20
    { id := 1, prompt := "Send Alex $32.50", status := "pending",
      createdAt := 0, completedAt := none }
    (by decide) (by decide)

/-! ## Claim C5 -/

/-- C5.  When the external oracle call reports a non-success HTTP status,
the run aborts before the emission loop: the task (looked up in the final
store) ends in status `failed`, the message table is exactly as before
the call — zero rows written by the run — and the broadcast list carries
exactly one `taskError` event, its payload being the task id and the
`API call failed` description; it is the final broadcast. -/
theorem C5_oracle_error_aborts (st : MemStorage) (taskId : Nat)
    (prompt : String) (resp : Routes.FetchResult) (stepTime : Nat → Nat)
    (startTime doneAt : Nat) (t : Task)
    (hok : resp.ok = false) (ht : st.getTask taskId = some t) :
    ((Routes.processTaskWithUpdates st taskId prompt resp stepTime startTime doneAt).1.getTask
      taskId) = some { t with status := "failed", completedAt := none } ∧
    (Routes.processTaskWithUpdates st taskId prompt resp stepTime startTime doneAt).1.messages =
      st.messages ∧
    ((Routes.processTaskWithUpdates st taskId prompt resp stepTime startTime doneAt).2.filter
      Routes.BroadcastEvent.isTaskError).length = 1 ∧
    (Routes.processTaskWithUpdates st taskId prompt resp stepTime startTime doneAt).2.getLast? =
      some (Routes.BroadcastEvent.taskError taskId
        ("API call failed: " ++ toString resp.status ++ " " ++ resp.statusText)) := by
  have h1 := getTask_updateTaskStatus_self st taskId "processing" none t ht
  have h2 := getTask_updateTaskStatus_self _ taskId "failed" none _ h1
  unfold Routes.processTaskWithUpdates
  simp only [hok, Bool.false_eq_true, if_false]
  refine ⟨by simpa using h2, ?_,
    by simp [Routes.BroadcastEvent.isTaskError], by simp [List.getLast?]⟩
  rw [updateTaskStatus_messages, updateTaskStatus_messages]

/-- C5, witness: an HTTP 500 reply on the pending task of `storeC5` ends
the run failed with no messages and a single terminal `taskError`. -/
theorem C5_witness :
    ((Routes.processTaskWithUpdates storeC5 1 "Send Alex $32.50" respC5 (fun i => i) 0 9).1.getTask
      1) = some { id := 1, prompt := "Send Alex $32.50", status := "failed",
                  createdAt := 0, completedAt := none } ∧
    (Routes.processTaskWithUpdates storeC5 1 "Send Alex $32.50" respC5 (fun i => i) 0 9).1.messages =
      storeC5.messages ∧
    ((Routes.processTaskWithUpdates storeC5 1 "Send Alex $32.50" respC5 (fun i => i) 0 9).2.filter
      Routes.BroadcastEvent.isTaskError).length = 1 ∧
    (Routes.processTaskWithUpdates storeC5 1 "Send Alex $32.50" respC5 (fun i => i) 0 9).2.getLast? =
      some (Routes.BroadcastEvent.taskError 1 "API call failed: 500 Internal Server Error") :=
  C5_oracle_error_aborts storeC5 1 "Send Alex $32.50" respC5 (fun i => i) 0 9
    { id := 1, prompt := "Send Alex $32.50", status := "pending",
      createdAt := 0, completedAt := none }
    (by decide) (by decide)

/-! ## Claim C7 -/

/-- C7.  The sequence returned by `getTaskMessages` is always
non-decreasing by timestamp; and whenever the stored per-task message
sequence (which is exactly the emission order, since `createMessage`
appends) is non-decreasing by timestamp — the system invariant, as write
times are taken from a monotone clock — the returned sequence is equal to
it, ties included: the stable sort keeps equal-timestamp messages in
insertion order. -/
theorem C7_message_order (st : MemStorage) (tid : Nat) :
    (st.getTaskMessages tid).Pairwise (fun a b => a.timestamp ≤ b.timestamp) ∧
    ((st.messages.filter (fun m => m.taskId == tid)).Pairwise
        (fun a b => a.timestamp ≤ b.timestamp) →
      st.getTaskMessages tid = st.messages.filter (fun m => m.taskId == tid)) := by
  constructor
  · unfold MemStorage.getTaskMessages
    have h := @List.sorted_mergeSort Message MemStorage.tsLe
      (fun a b c hab hbc => by
        simp only [MemStorage.tsLe, decide_eq_true_eq] at hab hbc ⊢
        omega)
      (fun a b => by
        simp only [MemStorage.tsLe, Bool.or_eq_true, decide_eq_true_eq]
        omega)
      (st.messages.filter (fun m => m.taskId == tid))
    exact h.imp (fun hab => by
      simpa [MemStorage.tsLe, decide_eq_true_eq] using hab)
  · exact getTaskMessages_eq_of_sorted st tid

/-- C7, witness: on `storeC7`, task 1 has two messages with equal
timestamps; the returned sequence is sorted and equals the emission
order. -/
theorem C7_witness :
    (storeC7.getTaskMessages 1).Pairwise (fun a b => a.timestamp ≤ b.timestamp) ∧
    storeC7.getTaskMessages 1 = storeC7.messages.filter (fun m => m.taskId == 1) :=
  ⟨(C7_message_order storeC7 1).1, (C7_message_order storeC7 1).2 (by decide)⟩

/-! ## Claim C8 -/

/-- C8.  Across two snapshots of the same task in which messages were
only appended and the status only advanced along
`pending → processing → completed` (the non-failed lifecycle), the
reported progress is non-decreasing, for both progress projections;
while the status is `processing` the progress is bounded by 95, and when
it is `completed` the progress is exactly 100. -/
theorem C8_progress_monotone (st₁ st₂ : MemStorage) (tid : Nat) (t₁ t₂ : Task)
    (h₁ : st₁.getTask tid = some t₁) (h₂ : st₂.getTask tid = some t₂)
    (hv₁ : t₁.status = "pending" ∨ t₁.status = "processing" ∨ t₁.status = "completed")
    (hv₂ : t₂.status = "pending" ∨ t₂.status = "processing" ∨ t₂.status = "completed")
    (hrank : statusRank t₁.status ≤ statusRank t₂.status)
    (hmsg : (st₁.messages.filter (fun m => m.taskId == tid)).length ≤
            (st₂.messages.filter (fun m => m.taskId == tid)).length) :
    ((AgentService.getTaskProgress st₁ tid).map TaskProgress.progress).getD 0 ≤
      ((AgentService.getTaskProgress st₂ tid).map TaskProgress.progress).getD 0 ∧
    ((ExternalAgentService.getTaskProgress st₁ tid).map TaskProgress.progress).getD 0 ≤
      ((ExternalAgentService.getTaskProgress st₂ tid).map TaskProgress.progress).getD 0 ∧
    (t₂.status = "processing" →
      ((AgentService.getTaskProgress st₂ tid).map TaskProgress.progress).getD 0 ≤ 95 ∧
      ((ExternalAgentService.getTaskProgress st₂ tid).map TaskProgress.progress).getD 0 ≤ 95) ∧
    (t₂.status = "completed" →
      ((AgentService.getTaskProgress st₂ tid).map TaskProgress.progress).getD 0 = 100 ∧
      ((ExternalAgentService.getTaskProgress st₂ tid).map TaskProgress.progress).getD 0 = 100) := by
  unfold AgentService.getTaskProgress ExternalAgentService.getTaskProgress
  rw [getTaskProgress_progress_eq 17 st₁ tid t₁ h₁,
      getTaskProgress_progress_eq 17 st₂ tid t₂ h₂,
      getTaskProgress_progress_eq 8 st₁ tid t₁ h₁,
      getTaskProgress_progress_eq 8 st₂ tid t₂ h₂]
  refine ⟨progressValue_mono 17 (by norm_num) _ _ _ _ hv₁ hv₂ hrank hmsg,
          progressValue_mono 8 (by norm_num) _ _ _ _ hv₁ hv₂ hrank hmsg, ?_, ?_⟩
  · intro hproc
    rw [hproc, progressValue_processing, progressValue_processing]
    exact ⟨min_le_right _ _, min_le_right _ _⟩
  · intro hcomp
    rw [hcomp, progressValue_completed, progressValue_completed]
    exact ⟨rfl, rfl⟩

/-- C8, witness: from the pending task of `storeC5` to the processing
task of `storeC8b` (one more message), progress is non-decreasing and
bounded by 95 while processing. -/
theorem C8_witness :
    ((AgentService.getTaskProgress storeC5 1).map TaskProgress.progress).getD 0 ≤
      ((AgentService.getTaskProgress storeC8b 1).map TaskProgress.progress).getD 0 ∧
    ((ExternalAgentService.getTaskProgress storeC5 1).map TaskProgress.progress).getD 0 ≤
      ((ExternalAgentService.getTaskProgress storeC8b 1).map TaskProgress.progress).getD 0 ∧
    (((AgentService.getTaskProgress storeC8b 1).map TaskProgress.progress).getD 0 ≤ 95 ∧
     ((ExternalAgentService.getTaskProgress storeC8b 1).map TaskProgress.progress).getD 0 ≤ 95) := by
  have h := C8_progress_monotone storeC5 storeC8b 1
    { id := 1, prompt := "Send Alex $32.50", status := "pending",
      createdAt := 0, completedAt := none }
    { id := 1, prompt := "Send Alex $32.50", status := "processing",
      createdAt := 0, completedAt := none }
    (by decide) (by decide) (by simp) (by simp) (by decide) (by decide)
  exact ⟨h.1, h.2.1, h.2.2.1 rfl⟩

/-! ## Claim C9 -/

/-- C9, counterexample.  The schema does not reject an empty prompt: a
body whose `prompt` is the empty string passes `z.string()` (drizzle-zod
adds no length constraint), so the endpoint answers with a created task
instead of a validation error, and the task is stored. -/
theorem C9_counterexample :
    (Routes.postTasks emptyStore (Routes.PromptField.strVal "") 0).1 =
      Routes.ApiResponse.okTask
        { id := 1, prompt := "", status := "pending", createdAt := 0, completedAt := none } ∧
    (Routes.postTasks emptyStore (Routes.PromptField.strVal "") 0).2.tasks =
      [{ id := 1, prompt := "", status := "pending", createdAt := 0, completedAt := none }] := by
  decide

/-- C9, amended.  The submission endpoint validates only that `prompt`
is present and a string: a missing or non-string member yields a
validation-error response enumerating the field errors and creates no
task, while any string — the empty string included — yields the created
task with status `pending` and `completedAt` null, appended to the
store. -/
theorem C9_validation (st : MemStorage) (s : String) (now : Nat) :
    Routes.postTasks st Routes.PromptField.missing now =
      (Routes.ApiResponse.validationError ["prompt: Required"], st) ∧
    Routes.postTasks st Routes.PromptField.nonString now =
      (Routes.ApiResponse.validationError ["prompt: Expected string, received other"], st) ∧
    Routes.postTasks st (Routes.PromptField.strVal s) now =
      (Routes.ApiResponse.okTask
        { id := st.currentTaskId, prompt := s, status := "pending",
          createdAt := now, completedAt := none },
       { st with
          tasks := st.tasks ++
            [{ id := st.currentTaskId, prompt := s, status := "pending",
               createdAt := now, completedAt := none }],
          currentTaskId := st.currentTaskId + 1 }) :=
  ⟨rfl, rfl, rfl⟩

/-! ## Claim C10 -/

/-- C10.  `getTaskProgress` (both projections) returns `none` exactly
when `getTask` is not-found; and for an existing task with zero stored
messages whose status is not `completed`, the snapshot reports all three
agents `idle` and carries no `currentMessage`. -/
theorem C10_progress_lookup (st0 st : MemStorage) (tid0 tid : Nat) (t : Task)
    (ht : st.getTask tid = some t)
    (hmsg : st.messages.filter (fun m => m.taskId == tid) = [])
    (hnc : t.status ≠ "completed") :
    (AgentService.getTaskProgress st0 tid0 = none ↔ st0.getTask tid0 = none) ∧
    (ExternalAgentService.getTaskProgress st0 tid0 = none ↔ st0.getTask tid0 = none) ∧
    (AgentService.getTaskProgress st tid).map TaskProgress.agentStatus =
      some { supervisor := "idle", phone := "idle", venmo := "idle" } ∧
    (AgentService.getTaskProgress st tid).map TaskProgress.currentMessage = some none ∧
    (ExternalAgentService.getTaskProgress st tid).map TaskProgress.agentStatus =
      some { supervisor := "idle", phone := "idle", venmo := "idle" } ∧
    (ExternalAgentService.getTaskProgress st tid).map TaskProgress.currentMessage = some none := by
  have hempty : st.getTaskMessages tid = [] := by
    unfold MemStorage.getTaskMessages
    rw [hmsg]
    exact List.mergeSort_nil
  have hbeq : (t.status == "completed") = false := by
    simpa using hnc
  have hAgent : ∀ e : ℚ, getTaskProgressWith e st tid =
      some { taskId := tid, progress := progressValue e t.status 0,
             status := t.status,
             agentStatus := { supervisor := "idle", phone := "idle", venmo := "idle" },
             currentMessage := none } := by
    intro e
    unfold getTaskProgressWith
    rw [ht, hempty]
    simp [agentStatusOf, hbeq]
  have hnone : ∀ (e : ℚ) (st1 : MemStorage) (tid1 : Nat),
      (getTaskProgressWith e st1 tid1 = none ↔ st1.getTask tid1 = none) := by
    intro e st1 tid1
    unfold getTaskProgressWith
    cases st1.getTask tid1 <;> simp
  unfold AgentService.getTaskProgress ExternalAgentService.getTaskProgress
  rw [hAgent 17, hAgent 8]
  exact ⟨hnone 17 st0 tid0, hnone 8 st0 tid0, rfl, rfl, rfl, rfl⟩

/-- C10, witness: the empty store has no task 1 and its snapshot is
`none`; the message-less pending task of `storeC5` reports all agents
idle with no current message. -/
theorem C10_witness :
    (AgentService.getTaskProgress emptyStore 1 = none ↔ emptyStore.getTask 1 = none) ∧
    (AgentService.getTaskProgress storeC5 1).map TaskProgress.agentStatus =
      some { supervisor := "idle", phone := "idle", venmo := "idle" } ∧
    (AgentService.getTaskProgress storeC5 1).map TaskProgress.currentMessage = some none := by
  have h := C10_progress_lookup emptyStore storeC5 1 1
    { id := 1, prompt := "Send Alex $32.50", status := "pending",
      createdAt := 0, completedAt := none }
    (by decide) (by decide) (by decide)
  exact ⟨h.1, h.2.2.1, h.2.2.2.1⟩

end MoWeb
